import Mathlib

/-!
Verification development for the Zami_be real-time location/messaging relay
(`src/main.py`, `src/database.py`, `src/settings.py`).

The mutable world of the service is modelled explicitly:
  * the persistent store is a value: lists of friendship edge rows, message
    rows and location rows (insertion order = primary-key order, since the
    `id` columns are autoincrement);
  * the in-memory connection registry `active_connections` is an association
    list from user id to a channel identifier (channels are opaque, a `Nat`);
  * `datetime.utcnow()` is an explicit `now : Nat` parameter, measured in
    hours (the only time arithmetic in the code is the 7-day retention
    cutoff and ordering comparisons, both preserved by this choice);
  * each handler is a pure function from its inputs and the relevant state
    to the updated state plus the list of payloads pushed to channels, in
    push order.

Latitude/longitude values are opaque payload in every handler (never
compared or computed with), so they are modelled as integers.
-/

namespace Zami

/-- The delivery lifecycle values assigned by `main.py` (`"sent"`,
`"delivered"`, `"read"` are the only strings ever written to the field). -/
inductive MsgStatus
  | sent
  | delivered
  | read
deriving DecidableEq, Repr

/-- One row of the `messages` table as manipulated by the handlers in
`main.py` (`handle_message`, `handle_mark_delivered`, `handle_mark_read`):
id, sender, receiver, optional content, optional sticker, creation time,
plus the three delivery fields `status`, `delivered_at`, `read_at` that the
handlers read and write.  Note that the declared schema in `database.py`
omits those three columns — see `messageTableColumns` below; that mismatch
is the subject of claim C1. -/
structure Msg where
  id : Nat
  sender_id : String
  receiver_id : String
  content : Option String
  sticker : Option String
  created_at : Nat
  status : MsgStatus
  delivered_at : Option Nat
  read_at : Option Nat
deriving DecidableEq, Repr

/-- The columns actually declared on `class Message` in `database.py`
(lines 50–63): there is no `status`, `delivered_at` or `read_at` column,
and `init_db` even drops those three columns from an existing table. -/
def messageTableColumns : List String :=
  ["id", "sender_id", "receiver_id", "content", "sticker", "created_at"]

/-- The keyword arguments `handle_message` passes to the `DBMessage(...)`
constructor in `main.py` (lines 608–614). -/
def handleMessageCtorKwargs : List String :=
  ["sender_id", "receiver_id", "content", "sticker", "status"]

/-- SQLAlchemy's declarative constructor raises `TypeError` exactly when
some keyword argument is not a declared attribute of the model class. -/
def ctorRaises (kwargs cols : List String) : Bool :=
  kwargs.any (fun k => !(cols.contains k))

/-- One directed row of the `friends` table (`database.py` `class Friend`):
`user_id` may see `friend_id`. -/
structure FriendEdge where
  user_id : String
  friend_id : String
deriving DecidableEq, Repr

/-- A directed edge a→b exists in the `friends` table. -/
def edgeExists (a b : String) (friends : List FriendEdge) : Bool :=
  friends.any (fun e => e.user_id == a && e.friend_id == b)

/-- The friendship check used throughout `main.py` (`add_friend`,
`get_messages`, `handle_message`): a row exists in either direction. -/
def are_friends (a b : String) (friends : List FriendEdge) : Bool :=
  edgeExists a b friends || edgeExists b a friends

/-- One row of the `user_locations` table (`database.py`
`class UserLocation`).  Coordinates are opaque payload (modelled as `Int`). -/
structure LocationRow where
  user_id : String
  lat : Int
  lng : Int
  accuracy : Int
  timestamp : Nat
deriving DecidableEq, Repr

/-- Error outcomes surfaced by the HTTP endpoints of `main.py`:
`selfFriendship` is the 400 "Cannot add yourself as a friend",
`alreadyFriends` the 400 "Friendship already exists", and `notFriends`
the 403 "Users are not friends". -/
inductive ApiError
  | selfFriendship
  | alreadyFriends
  | notFriends
deriving DecidableEq, Repr

/-- `add_friend` (`main.py` lines 224–264): reject self-friendship, reject
an existing edge in either direction, otherwise insert both directed rows
in one commit. -/
def add_friend (user_id friend_id : String) (friends : List FriendEdge) :
    Except ApiError (List FriendEdge) :=
  if friend_id == user_id then
    .error .selfFriendship
  else if are_friends user_id friend_id friends then
    .error .alreadyFriends
  else
    .ok (friends ++ [⟨user_id, friend_id⟩, ⟨friend_id, user_id⟩])

/-- `remove_friend` (`main.py` lines 266–288): delete every row matching
either direction of the pair; succeeds (with no error) even if none exist. -/
def remove_friend (user_id friend_id : String) (friends : List FriendEdge) :
    List FriendEdge :=
  friends.filter (fun e =>
    !((e.user_id == user_id && e.friend_id == friend_id) ||
      (e.user_id == friend_id && e.friend_id == user_id)))

example : are_friends "a" "b" [] = false := by decide

example :
    add_friend "a" "b" [] = .ok [⟨"a", "b"⟩, ⟨"b", "a"⟩] := rfl

example : add_friend "a" "a" [] = .error .selfFriendship := rfl

example :
    add_friend "b" "a" [⟨"a", "b"⟩, ⟨"b", "a"⟩] = .error .alreadyFriends := rfl

example : remove_friend "a" "b" [⟨"a", "b"⟩, ⟨"b", "a"⟩] = [] := by decide

/-- The retention horizon: `timedelta(days=7)`, in hours. -/
def retention_hours : Nat := 7 * 24

/-- The conversation filter of `get_messages` (`main.py` lines 350–354):
the message is between the two users, in either direction. -/
def pairMatch (u p : String) (m : Msg) : Bool :=
  (m.sender_id == u && m.receiver_id == p) ||
  (m.sender_id == p && m.receiver_id == u)

/-- The horizon filter of `get_messages` (`main.py` line 355):
`created_at >= cutoff_date` where `cutoff_date = now - 7 days`.  (With
`Nat` truncated subtraction this coincides with the real-time comparison:
when `now < retention_hours` the real cutoff is negative and every
timestamp passes, just as every `Nat` is `≥ 0`.) -/
def withinHorizon (now : Nat) (m : Msg) : Bool :=
  decide (now - retention_hours ≤ m.created_at)

/-- The spec's wording for the history filter, for comparison with the
code: creation time *strictly* within the retention horizon, i.e. strictly
newer than `now - retention_hours`. -/
def strictlyWithinHorizon (now : Nat) (m : Msg) : Bool :=
  decide (now - retention_hours < m.created_at)

/-- The comparison used to model `ORDER BY created_at ASC`. -/
def msgLe (a b : Msg) : Prop :=
  a.created_at ≤ b.created_at

instance : DecidableRel msgLe :=
  fun a b => Nat.decLe a.created_at b.created_at

instance : IsTotal Msg msgLe :=
  ⟨fun a b => Nat.le_total a.created_at b.created_at⟩

instance : IsTrans Msg msgLe :=
  ⟨fun _ _ _ hab hbc => Nat.le_trans hab hbc⟩

/-- The `WHERE` clause of `get_messages`'s message query (`main.py` lines
349–355): the rows between the pair with `created_at >= cutoff`, in table
(primary-key) order. -/
def history_filter (user_id friend_id : String) (now : Nat)
    (messages : List Msg) : List Msg :=
  messages.filter (fun m => pairMatch user_id friend_id m && withinHorizon now m)

/-- A row order the database may return for `ORDER BY created_at ASC`:
any permutation of the selected rows that is ascending in `created_at`.
The query has no secondary sort key and PostgreSQL's sort is not stable,
so the order among rows with equal `created_at` is unspecified by the
source; this predicate states exactly what the query fixes. -/
def orderByCreatedAt (selected result : List Msg) : Prop :=
  selected.Perm result ∧ List.Sorted msgLe result

/-- `get_messages` (`main.py` lines 328–375): verify friendship in either
direction (403 `notFriends` otherwise), then return the messages between
the pair with `created_at >= now - 7 days` in the row order produced by
the database for `ORDER BY created_at ASC`.  That order is an explicit
argument `dbOrder`, constrained in the theorems by `orderByCreatedAt`
only, since the source determines nothing beyond ascending `created_at`. -/
def get_messages (user_id friend_id : String) (now : Nat)
    (friends : List FriendEdge) (messages : List Msg)
    (dbOrder : List Msg → List Msg) : Except ApiError (List Msg) :=
  if are_friends user_id friend_id friends then
    .ok (dbOrder (history_filter user_id friend_id now messages))
  else
    .error .notFriends

/-- One run of the retention sweeper `cleanup_old_messages` (`main.py`
lines 37–56): bulk-delete every message with `created_at < now - 7 days`;
returns the surviving table and the deleted row count that is logged. -/
def cleanup_old_messages_run (now : Nat) (messages : List Msg) :
    List Msg × Nat :=
  (messages.filter (fun m => !decide (m.created_at < now - retention_hours)),
   (messages.filter (fun m => decide (m.created_at < now - retention_hours))).length)

/-- `get_all_locations`, the `/api/locations` endpoint (`main.py` lines
104–120): it selects every row of `user_locations` and returns all of
them.  The endpoint takes no caller identity and applies no friendship
filter, so its response is the same for every caller. -/
def get_all_locations (locations : List LocationRow) : List LocationRow :=
  locations

/-- The friend query of `broadcast_location_update` (`main.py` lines
564–567): rows with `friend_id == user_id`, collecting their `user_id`. -/
def locationFriendQuery (user_id : String) (friends : List FriendEdge) :
    List String :=
  (friends.filter (fun e => e.friend_id == user_id)).map (fun e => e.user_id)

/-- The recipient set of `broadcast_location_update`: on a successful
friend lookup, the friends plus the updating user (`main.py` lines
567–569); if the lookup raises, the fallback is the user alone (lines
570–572). -/
def broadcast_recipients (user_id : String)
    (friendLookup : Except Unit (List String)) : List String :=
  match friendLookup with
  | .ok l => user_id :: l
  | .error _ => [user_id]

/-- `broadcast_location_update` (`main.py` lines 553–585): iterate the
active connections in order and push the location event to each connected
user in the recipient set.  Returns the user ids pushed to, in push
order.  The friend lookup outcome (success with the queried rows, or a
store failure) is an explicit argument. -/
def broadcast_location_update (user_id : String)
    (friendLookup : Except Unit (List String)) (conns : List String) :
    List String :=
  conns.filter (fun uid => (broadcast_recipients user_id friendLookup).contains uid)

/-- Outcome of `handle_message`: the resulting `messages` table, the
`(target user, message id)` pushes made, and whether the handler's
`except` branch ran (server-side log + rollback). -/
structure RelayResult where
  messages : List Msg
  pushes : List (String × Nat)
  errorLogged : Bool
deriving DecidableEq, Repr

/-- `handle_message` (`main.py` lines 587–650).  Branches, in code order:
missing/empty `receiver_id` returns silently (589–591); a pair that is not
friends in either direction returns silently (596–605); otherwise the
handler constructs `DBMessage(..., status="sent")` (608–614) — SQLAlchemy's
declarative constructor raises `TypeError` here whenever a keyword is not a
declared column, and `status` is not among `messageTableColumns`, so
control jumps to the `except` branch (648–650): rollback, server-side log,
nothing persisted, nothing pushed.  The remainder transcribes the success
path (616–647) — persist with status `sent`, push to a connected receiver
and immediately persist the `delivered` transition with
`delivered_at = now`, then echo to the sender if connected — which is
unreachable while the schema lacks the `status` column. -/
def handle_message (sender_id receiver_id : String)
    (content sticker : Option String) (now nextId : Nat)
    (friends : List FriendEdge) (conns : List String)
    (messages : List Msg) : RelayResult :=
  if receiver_id == "" then
    ⟨messages, [], false⟩
  else if !are_friends sender_id receiver_id friends then
    ⟨messages, [], false⟩
  else if ctorRaises handleMessageCtorKwargs messageTableColumns then
    ⟨messages, [], true⟩
  else
    let msg0 : Msg :=
      ⟨nextId, sender_id, receiver_id, content, sticker, now, .sent, none, none⟩
    let echo := if conns.contains sender_id then [(sender_id, nextId)] else []
    if conns.contains receiver_id then
      ⟨messages ++ [{msg0 with status := .delivered, delivered_at := some now}],
       (receiver_id, nextId) :: echo, false⟩
    else
      ⟨messages ++ [msg0], echo, false⟩

/-- The per-row update of `handle_mark_delivered` (`main.py` lines
695–705): the row is loaded only when its `receiver_id` matches the acking
user, and updated only when `delivered_at` is still null; then
`status = "delivered"`, `delivered_at = now`. -/
def markDeliveredMsg (user_id : String) (now : Nat) (m : Msg) : Msg :=
  if m.receiver_id == user_id && m.delivered_at.isNone then
    {m with status := .delivered, delivered_at := some now}
  else m

/-- `handle_mark_delivered` (`main.py` lines 687–709): no-op on an empty
id list; otherwise apply `markDeliveredMsg` to each listed message. -/
def handle_mark_delivered (message_ids : List Nat) (user_id : String)
    (now : Nat) (messages : List Msg) : List Msg :=
  if message_ids.isEmpty then messages
  else messages.map (fun m =>
    if message_ids.contains m.id then markDeliveredMsg user_id now m else m)

/-- The per-row update of `handle_mark_read` (`main.py` lines 719–729):
the row is loaded only when its `receiver_id` matches the acking user, and
updated only when `read_at` is still null; then `status = "read"`,
`read_at = now`. -/
def markReadMsg (user_id : String) (now : Nat) (m : Msg) : Msg :=
  if m.receiver_id == user_id && m.read_at.isNone then
    {m with status := .read, read_at := some now}
  else m

/-- Outcome of `handle_mark_read`: the resulting table plus the
`messages_read` pushes, each carrying the id-list payload sent to one
sender. -/
structure ReadAckResult where
  messages : List Msg
  pushes : List (String × List Nat)
deriving DecidableEq, Repr

/-- `handle_mark_read` (`main.py` lines 711–751): no-op on an empty id
list; otherwise apply `markReadMsg` to each listed message and commit;
then re-load *all* listed messages, collect the set of their senders other
than the acking user (`main.py` lines 733–737, a Python set — modelled as
`dedup`, first occurrence kept), and push a `messages_read` event carrying
the *entire input id list* to each such sender that is connected. -/
def handle_mark_read (message_ids : List Nat) (user_id : String) (now : Nat)
    (messages : List Msg) (conns : List String) : ReadAckResult :=
  if message_ids.isEmpty then ⟨messages, []⟩
  else
    let updated := messages.map (fun m =>
      if message_ids.contains m.id then markReadMsg user_id now m else m)
    let listed := updated.filter (fun m => message_ids.contains m.id)
    let senderIds := ((listed.map (fun m => m.sender_id)).filter
        (fun s => s != user_id)).dedup
    ⟨updated, (senderIds.filter (fun s => conns.contains s)).map
        (fun s => (s, message_ids))⟩

/-- The in-memory connection registry `active_connections`: user id to an
opaque channel identifier.  A Python dict is modelled as an association
list whose keys are unique (newest entry first). -/
abbrev Registry := List (String × Nat)

/-- Dict lookup: the channel currently stored for a user, if any. -/
def lookupConn (user_id : String) (reg : Registry) : Option Nat :=
  (reg.find? (fun e => e.1 == user_id)).map (fun e => e.2)

/-- `active_connections[user_id] = websocket` on connect (`main.py` line
409): installs or replaces the user's channel (dict assignment). -/
def register_connection (user_id : String) (ws : Nat) (reg : Registry) :
    Registry :=
  (user_id, ws) :: reg.filter (fun e => e.1 != user_id)

/-- The disconnect handler (`main.py` lines 545–547):
`if user_id in active_connections: del active_connections[user_id]` —
it removes whatever entry the user has, without comparing the stored
channel to the disconnecting one. -/
def disconnect_cleanup (user_id : String) (reg : Registry) : Registry :=
  reg.filter (fun e => e.1 != user_id)

/-- Modelled from the spec: §4.1's `unregister(user_id)` "removes the
mapping only if the currently-stored channel matches the caller's".  The
disconnect handler in `main.py` has no such guard; this definition states
the spec's words for comparison. -/
def unregister_matching (user_id : String) (ws : Nat) (reg : Registry) :
    Registry :=
  if lookupConn user_id reg == some ws then disconnect_cleanup user_id reg
  else reg

example :
    get_messages "u" "p" 1000 [⟨"u", "p"⟩]
      [⟨1, "u", "p", some "hi", none, 832, .sent, none, none⟩]
      (List.insertionSort msgLe) =
    .ok [⟨1, "u", "p", some "hi", none, 832, .sent, none, none⟩] := rfl

example :
    cleanup_old_messages_run 1000
      [⟨1, "u", "p", none, none, 856, .sent, none, none⟩,
       ⟨2, "u", "p", none, none, 831, .sent, none, none⟩,
       ⟨3, "u", "p", none, none, 280, .sent, none, none⟩] =
    ([⟨1, "u", "p", none, none, 856, .sent, none, none⟩], 2) := by decide

example :
    handle_message "alice" "bob" (some "hi") none 100 1
      [⟨"alice", "bob"⟩, ⟨"bob", "alice"⟩] ["alice", "bob"] [] =
    ⟨[], [], true⟩ := by decide

example :
    broadcast_location_update "u" (.error ()) ["u", "v", "w"] = ["u"] := by
  decide

/-- The friendship table is closed under mirroring: every directed row has
its reverse row.  `add_friend` and `remove_friend` maintain this (§3's
bidirectional invariant); stated as a decidable property of the table. -/
def mirrorClosed (friends : List FriendEdge) : Bool :=
  friends.all (fun e => edgeExists e.friend_id e.user_id friends)

theorem contains_iff_mem {α : Type} [BEq α] [LawfulBEq α] {l : List α}
    {x : α} : l.contains x = true ↔ x ∈ l :=
  List.elem_iff

theorem edgeExists_iff_mem {a b : String} {friends : List FriendEdge} :
    edgeExists a b friends = true ↔ (⟨a, b⟩ : FriendEdge) ∈ friends := by
  simp only [edgeExists, List.any_eq_true, Bool.and_eq_true, beq_iff_eq]
  constructor
  · rintro ⟨e, he, h1, h2⟩
    have : e = (⟨a, b⟩ : FriendEdge) := by
      cases e
      simp_all
    exact this ▸ he
  · intro h
    exact ⟨⟨a, b⟩, h, rfl, rfl⟩

theorem mem_locationFriendQuery {x u : String} {friends : List FriendEdge} :
    x ∈ locationFriendQuery u friends ↔ edgeExists x u friends = true := by
  simp only [locationFriendQuery, List.mem_map, List.mem_filter,
    edgeExists, List.any_eq_true, Bool.and_eq_true, beq_iff_eq]
  constructor
  · rintro ⟨e, ⟨he, hf⟩, hx⟩
    exact ⟨e, he, hx, hf⟩
  · rintro ⟨e, he, hx, hf⟩
    exact ⟨e, ⟨he, hf⟩, hx⟩

theorem length_filter_split {α : Type} (p : α → Bool) (l : List α) :
    (l.filter (fun x => !p x)).length + (l.filter p).length = l.length := by
  induction l with
  | nil => rfl
  | cons a t ih =>
    rw [List.filter_cons, List.filter_cons]
    cases h : p a with
    | true =>
      simp only [h, Bool.not_true, Bool.false_eq_true, if_false, if_true,
        List.length_cons]
      omega
    | false =>
      simp only [h, Bool.not_false, Bool.false_eq_true, if_false, if_true,
        List.length_cons]
      omega

/-- `List.insertionSort msgLe` is one concrete row order compliant with
`ORDER BY created_at ASC`; it instantiates `dbOrder` in concrete runs. -/
theorem insertionSort_orderByCreatedAt (l : List Msg) :
    orderByCreatedAt l (List.insertionSort msgLe l) :=
  ⟨(List.perm_insertionSort msgLe l).symm, List.sorted_insertionSort msgLe l⟩

theorem edgeExists_append_pair (a b : String) (s : List FriendEdge) :
    edgeExists a b (s ++ [⟨a, b⟩, ⟨b, a⟩]) = true :=
  edgeExists_iff_mem.mpr (by simp)

/-- The three reference messages of the retention scenario, with `now`
taken as hour 1000: ages 6 days (144 h), 7 days 1 hour (169 h) and
30 days (720 h). -/
def msg_age_six_days : Msg :=
  ⟨1, "a", "b", some "newest", none, 856, .sent, none, none⟩

def msg_age_seven_days_one_hour : Msg :=
  ⟨2, "a", "b", some "old", none, 831, .sent, none, none⟩

def msg_age_thirty_days : Msg :=
  ⟨3, "a", "b", some "oldest", none, 280, .sent, none, none⟩

/-- The message of the history boundary scenario: created exactly at
`now - retention_hours` for `now = 1000`. -/
def history_demo_message : Msg :=
  ⟨1, "u", "p", some "hi", none, 832, .sent, none, none⟩

/-- C4: relaying a message to a non-friend is silently dropped: the
message table is unchanged, nothing is pushed to any channel, and no
error reaches the sender (the handler returns before even touching the
store, so not even the server-side error log fires). -/
theorem c4_relay_to_non_friend_silent (sender_id receiver_id : String)
    (content sticker : Option String) (now nextId : Nat)
    (friends : List FriendEdge) (conns : List String) (messages : List Msg)
    (h : are_friends sender_id receiver_id friends = false) :
    handle_message sender_id receiver_id content sticker now nextId
      friends conns messages = ⟨messages, [], false⟩ := by
  by_cases hr : (receiver_id == "") = true
  · rw [handle_message, if_pos hr]
  · rw [handle_message, if_neg hr, if_pos (by simp [h])]

/-- C4 witness: "mallory" and "bob" are not friends, and a relay between
them leaves the store empty and pushes nothing, with no error surfaced. -/
theorem c4_witness :
    are_friends "mallory" "bob" [] = false ∧
    handle_message "mallory" "bob" (some "hi") none 5 1 [] ["bob", "mallory"] []
      = ⟨[], [], false⟩ :=
  ⟨by decide,
   c4_relay_to_non_friend_silent "mallory" "bob" (some "hi") none 5 1 []
     ["bob", "mallory"] [] (by decide)⟩

/-- C1: the claimed relay behaviour (persist with status `sent`, push and
advance to `delivered` when the receiver is online, echo to the sender)
never happens: `database.py`'s `Message` model declares no `status` column
(and `init_db` drops `status`/`delivered_at`/`read_at` from an existing
table), so `DBMessage(..., status="sent")` raises `TypeError`, the
handler's `except` branch rolls back, and even between friends with the
receiver connected the message is neither persisted nor pushed — only the
server-side error log fires. -/
theorem c1_relay_between_friends_crashes :
    ctorRaises handleMessageCtorKwargs messageTableColumns = true ∧
    handle_message "alice" "bob" (some "hi") none 100 1
      [⟨"alice", "bob"⟩, ⟨"bob", "alice"⟩] ["alice", "bob"] []
      = ⟨[], [], true⟩ := by
  exact ⟨by decide, by decide⟩

/-- C9: one retention sweep keeps exactly the messages whose creation
timestamp is at least `now` minus the 7-day horizon, deletes all strictly
older ones (the logged count plus the survivors account for the whole
table), and on the reference store with ages 6 days, 7 days 1 hour and
30 days it removes exactly the two beyond the horizon. -/
theorem c9_retention_sweep (now : Nat) (msgs : List Msg) :
    (∀ m, m ∈ (cleanup_old_messages_run now msgs).1 ↔
      m ∈ msgs ∧ now - retention_hours ≤ m.created_at) ∧
    (cleanup_old_messages_run now msgs).1.length
      + (cleanup_old_messages_run now msgs).2 = msgs.length ∧
    cleanup_old_messages_run 1000
      [msg_age_six_days, msg_age_seven_days_one_hour, msg_age_thirty_days]
      = ([msg_age_six_days], 2) := by
  refine ⟨?_, ?_, ?_⟩
  · intro m
    simp [cleanup_old_messages_run, List.mem_filter, Nat.not_lt]
  · exact length_filter_split _ msgs
  · decide

/-- C9 witness: the theorem applied at the reference store: the 6-day-old
message survives the sweep because its timestamp is within the horizon. -/
theorem c9_witness :
    msg_age_six_days ∈
      (cleanup_old_messages_run 1000
        [msg_age_six_days, msg_age_seven_days_one_hour, msg_age_thirty_days]).1 := by
  have h := (c9_retention_sweep 1000
    [msg_age_six_days, msg_age_seven_days_one_hour, msg_age_thirty_days]).1
  exact (h msg_age_six_days).mpr ⟨by decide, by decide⟩

/-- C10: when the friend lookup fails during a location broadcast, every
push goes to the updating user alone, and every user pushed to under the
failure would also have been pushed to under any successful lookup — a
store failure can shrink the broadcast, never widen it. -/
theorem c10_lookup_failure_fail_closed (u : String) (conns l : List String)
    (x : String)
    (hx : x ∈ broadcast_location_update u (.error ()) conns) :
    x = u ∧ x ∈ broadcast_location_update u (.ok l) conns := by
  have h := List.mem_filter.mp hx
  have hxu : x = u := by
    have hm := contains_iff_mem.mp h.2
    simpa [broadcast_recipients] using hm
  subst hxu
  refine ⟨rfl, List.mem_filter.mpr ⟨h.1, contains_iff_mem.mpr ?_⟩⟩
  simp [broadcast_recipients]

/-- C10 witness: with "u" and "v" connected, the failure broadcast for "u"
reaches "u", and "u" is also reached when the lookup succeeds with friend
list `["w"]`. -/
theorem c10_witness :
    "u" = "u" ∧
    "u" ∈ broadcast_location_update "u" (.ok ["w"]) ["u", "v"] :=
  c10_lookup_failure_fail_closed "u" ["u", "v"] ["w"] "u" (by decide)

/-- C5 counterexample: user "u" connects with channel 1, then with channel
2; the registry stores channel 2.  The stale disconnect handler of channel
1 then runs: the code's cleanup evicts the newer connection (the lookup
becomes `none`), whereas the claimed match-guarded unregister would have
left channel 2 installed. -/
theorem c5_counterexample_stale_disconnect_evicts :
    lookupConn "u" (register_connection "u" 2 (register_connection "u" 1 []))
      = some 2 ∧
    lookupConn "u" (disconnect_cleanup "u"
      (register_connection "u" 2 (register_connection "u" 1 []))) = none ∧
    unregister_matching "u" 1
        (register_connection "u" 2 (register_connection "u" 1 []))
      = register_connection "u" 2 (register_connection "u" 1 []) := by
  exact ⟨by decide, by decide, by decide⟩

/-- C5 as amended: the registry keeps at most one entry per user and
`register` is last-writer-wins, but the disconnect handler removes the
user's entry unconditionally — it never compares the stored channel with
the disconnecting one — so after any disconnect cleanup the user is gone
from the registry even if a newer connection had superseded the one that
disconnected. -/
theorem c5_registry_lww_and_unconditional_evict (u : String) (c : Nat)
    (reg : Registry) :
    lookupConn u (register_connection u c reg) = some c ∧
    ((reg.map Prod.fst).Nodup →
      ((register_connection u c reg).map Prod.fst).Nodup) ∧
    lookupConn u (disconnect_cleanup u reg) = none := by
  refine ⟨?_, ?_, ?_⟩
  · simp [lookupConn, register_connection]
  · intro hnd
    simp only [register_connection, List.map_cons]
    refine List.nodup_cons.mpr ⟨?_, ?_⟩
    · intro hmem
      obtain ⟨e, he, hfst⟩ := List.mem_map.mp hmem
      have := (List.mem_filter.mp he).2
      rw [bne_iff_ne] at this
      exact this hfst
    · exact List.Nodup.sublist ((List.filter_sublist reg).map Prod.fst) hnd
  · rw [lookupConn, disconnect_cleanup]
    have : List.find? (fun e => e.1 == u)
        (reg.filter (fun e => e.1 != u)) = none := by
      rw [List.find?_eq_none]
      intro e he hbe
      have := (List.mem_filter.mp he).2
      rw [bne_iff_ne] at this
      exact this (by simpa using hbe)
    rw [this]
    rfl

/-- C5 witness: the theorem at `u = "u"`, channel 7, over a registry
holding "v": the fresh registration is looked up, key uniqueness is
preserved, and the disconnect cleanup removes the entry. -/
theorem c5_witness :
    lookupConn "u" (register_connection "u" 7 [("v", 3)]) = some 7 ∧
    ((register_connection "u" 7 [("v", 3)]).map Prod.fst).Nodup ∧
    lookupConn "u" (disconnect_cleanup "u" [("v", 3), ("u", 7)]) = none := by
  have h := c5_registry_lww_and_unconditional_evict "u" 7 [("v", 3)]
  have h' := c5_registry_lww_and_unconditional_evict "u" 7 [("v", 3), ("u", 7)]
  exact ⟨h.1, h.2.1 (by decide), h'.2.2⟩

/-- C3 counterexample: a message from "s" to "u" in state `sent` is acked
`read` at hour 5 (the direct sent→read transition: `read_at = 5`,
`delivered_at` still null), then acked `delivered` at hour 9: the handler
regresses the status from `read` back to `delivered` and sets
`delivered_at = 9 > 5 = read_at`, so the status does not only transition
sent→delivered and `delivered_at ≤ read_at` fails with both present. -/
theorem c3_counterexample_read_then_delivered :
    (handle_mark_read [1] "u" 5
        [⟨1, "s", "u", some "hi", none, 0, .sent, none, none⟩] []).messages
      = [⟨1, "s", "u", some "hi", none, 0, .read, none, some 5⟩] ∧
    handle_mark_delivered [1] "u" 9
        [⟨1, "s", "u", some "hi", none, 0, .read, none, some 5⟩]
      = [⟨1, "s", "u", some "hi", none, 0, .delivered, some 9, some 5⟩] ∧
    ¬ (9 ≤ 5) := by
  exact ⟨by decide, by decide, by decide⟩

/-- C3 as amended: per acknowledgement step, `delivered_at` and `read_at`
are each set at most once (a step never overwrites a set timestamp, and
the read step never touches `delivered_at` nor the delivered step
`read_at`); re-acking `read` on a read message or `delivered` on a
delivered message is a no-op; and — on states where status `read` implies
a set `read_at`, as in every reachable state — the status transitions to
`read` only from `sent` or `delivered`.  (What the original claim adds —
that status only transitions sent→delivered and that
`delivered_at ≤ read_at` — fails: see the counterexample.) -/
theorem c3_delivery_fields_at_most_once (m : Msg) (uid : String) (now : Nat) :
    (m.delivered_at.isSome = true → markDeliveredMsg uid now m = m) ∧
    (markReadMsg uid now m).delivered_at = m.delivered_at ∧
    (m.read_at.isSome = true → markReadMsg uid now m = m) ∧
    (markDeliveredMsg uid now m).read_at = m.read_at ∧
    ((m.status = .read → m.read_at.isSome = true) →
      markReadMsg uid now m ≠ m →
      (m.status = .sent ∨ m.status = .delivered)) := by
  refine ⟨?_, ?_, ?_, ?_, ?_⟩
  · intro h
    cases hd : m.delivered_at with
    | none => rw [hd] at h; cases h
    | some t => rw [markDeliveredMsg, if_neg (by simp [hd])]
  · rw [markReadMsg]
    split <;> rfl
  · intro h
    cases hr : m.read_at with
    | none => rw [hr] at h; cases h
    | some t => rw [markReadMsg, if_neg (by simp [hr])]
  · rw [markDeliveredMsg]
    split <;> rfl
  · intro hstat hne
    by_cases hc : (m.receiver_id == uid && m.read_at.isNone) = true
    · cases hs : m.status with
      | sent => exact Or.inl rfl
      | delivered => exact Or.inr rfl
      | read =>
        have hsome := hstat hs
        rw [Bool.and_eq_true] at hc
        have hnone := hc.2
        cases hr : m.read_at with
        | none => rw [hr] at hsome; cases hsome
        | some t => rw [hr] at hnone; cases hnone
    · rw [markReadMsg, if_neg hc] at hne
      exact absurd rfl hne

/-- C3 witness: the theorem at a concrete already-read message: a repeated
read ack at hour 9 leaves it unchanged. -/
theorem c3_witness :
    markReadMsg "u" 9 ⟨1, "s", "u", some "hi", none, 0, .read, some 3, some 5⟩
      = ⟨1, "s", "u", some "hi", none, 0, .read, some 3, some 5⟩ :=
  (c3_delivery_fields_at_most_once
    ⟨1, "s", "u", some "hi", none, 0, .read, some 3, some 5⟩ "u" 9).2.2.1
    (by decide)

/-- C2 counterexample: "v" is not a friend of "u", yet the
`/api/locations` read endpoint — which takes no caller identity and
filters nothing, so its response is what any caller, "v" included,
receives — contains "u"'s location row. -/
theorem c2_counterexample_locations_endpoint_leaks :
    are_friends "v" "u" ([] : List FriendEdge) = false ∧
    (⟨"u", 10, 20, 5, 0⟩ : LocationRow) ∈
      get_all_locations [⟨"u", 10, 20, 5, 0⟩] := by
  exact ⟨by decide, by decide⟩

/-- C2 as amended: the *push* path is friend-scoped — over a
mirror-closed friendship table, a location update from `u` is pushed to
exactly the connected users who are friends of `u` or `u` themself, so no
connected non-friend ever receives the push, however many are connected.
(The original claim's further statement that *no* operation returns a
location to a non-friend fails at the `/api/locations` read endpoint: see
the counterexample.) -/
theorem c2_location_push_friends_only (u x : String)
    (friends : List FriendEdge) (conns : List String)
    (hsym : mirrorClosed friends = true) :
    x ∈ broadcast_location_update u (.ok (locationFriendQuery u friends)) conns
      ↔ x ∈ conns ∧ (are_friends x u friends = true ∨ x = u) := by
  have hedge : edgeExists x u friends = true ↔ are_friends x u friends = true := by
    constructor
    · intro h
      simp [are_friends, h]
    · intro h
      rcases Bool.or_eq_true_iff.mp (by simpa [are_friends] using h) with h' | h'
      · exact h'
      · have hm := edgeExists_iff_mem.mp h'
        have hall := List.all_eq_true.mp hsym ⟨u, x⟩ hm
        simpa using hall
  constructor
  · intro hx
    have h := List.mem_filter.mp hx
    have hrec := contains_iff_mem.mp h.2
    simp only [broadcast_recipients] at hrec
    rcases List.mem_cons.mp hrec with h' | h'
    · exact ⟨h.1, Or.inr h'⟩
    · exact ⟨h.1, Or.inl (hedge.mp (mem_locationFriendQuery.mp h'))⟩
  · rintro ⟨hc, hf | hxu⟩
    · refine List.mem_filter.mpr ⟨hc, contains_iff_mem.mpr ?_⟩
      simp only [broadcast_recipients]
      exact List.mem_cons.mpr
        (Or.inr (mem_locationFriendQuery.mpr (hedge.mpr hf)))
    · refine List.mem_filter.mpr ⟨hc, contains_iff_mem.mpr ?_⟩
      simp [broadcast_recipients, hxu]

/-- C2 witness: the theorem over the table where "f"↔"u" are friends and
connections ["f", "n"]: friend "f" receives the push for "u"'s update,
and non-friend "n" does not. -/
theorem c2_witness :
    "f" ∈ broadcast_location_update "u"
      (.ok (locationFriendQuery "u" [⟨"f", "u"⟩, ⟨"u", "f"⟩])) ["f", "n"] ∧
    "n" ∉ broadcast_location_update "u"
      (.ok (locationFriendQuery "u" [⟨"f", "u"⟩, ⟨"u", "f"⟩])) ["f", "n"] := by
  constructor
  · exact (c2_location_push_friends_only "u" "f" [⟨"f", "u"⟩, ⟨"u", "f"⟩]
      ["f", "n"] (by decide)).mpr ⟨by decide, Or.inl (by decide)⟩
  · intro hmem
    have h := (c2_location_push_friends_only "u" "n" [⟨"f", "u"⟩, ⟨"u", "f"⟩]
      ["f", "n"] (by decide)).mp hmem
    rcases h.2 with h' | h'
    · exact absurd h' (by decide)
    · exact absurd h' (by decide)

/-- C6 counterexample: the store holds one message from "s" to "w"; user
"u" — who is not its receiver — acks it read.  The transition is
correctly skipped (the store is unchanged, nothing was newly read), yet
the code still pushes a `messages_read` event carrying `[1]` to sender
"s": the notification is the full input id list, not the set of
newly-read ids (which is empty here). -/
theorem c6_counterexample_notified_without_newly_read :
    handle_mark_read [1] "u" 5
        [⟨1, "s", "w", some "hi", none, 0, .sent, none, none⟩] ["s"]
      = ⟨[⟨1, "s", "w", some "hi", none, 0, .sent, none, none⟩],
         [("s", [1])]⟩ := by
  decide

/-- C6 as amended: for a read ack, each listed message is updated only if
its receiver is the acking user — positionally, any message whose
receiver differs is left exactly as it was; afterwards every push goes to
a connected sender (other than the acker) of some listed message, and
every such sender receives one — but the payload of every push is the
*entire input id list*, whether or not those messages were newly read. -/
theorem c6_read_ack_receiver_check_and_notification (ids : List Nat)
    (uid : String) (now : Nat) (msgs : List Msg) (conns : List String) :
    List.Forall₂ (fun m m' => m.receiver_id ≠ uid → m' = m) msgs
      (handle_mark_read ids uid now msgs conns).messages ∧
    (∀ q ∈ (handle_mark_read ids uid now msgs conns).pushes,
      q.2 = ids ∧ q.1 ∈ conns ∧ q.1 ≠ uid ∧
      ∃ m ∈ (handle_mark_read ids uid now msgs conns).messages,
        m.id ∈ ids ∧ m.sender_id = q.1) ∧
    (∀ m ∈ (handle_mark_read ids uid now msgs conns).messages,
      m.id ∈ ids → m.sender_id ≠ uid → m.sender_id ∈ conns →
      (m.sender_id, ids) ∈ (handle_mark_read ids uid now msgs conns).pushes) := by
  by_cases hids : ids.isEmpty = true
  · have hnil : ids = [] := List.isEmpty_iff.mp hids
    rw [handle_mark_read, if_pos hids]
    refine ⟨List.forall₂_same.mpr (fun x _ _ => rfl), ?_, ?_⟩
    · intro q hq
      exact absurd hq (List.not_mem_nil q)
    · intro m _ hid
      rw [hnil] at hid
      exact absurd hid (List.not_mem_nil m.id)
  · rw [handle_mark_read, if_neg hids]
    refine ⟨?_, ?_, ?_⟩
    · rw [List.forall₂_map_right_iff]
      refine List.forall₂_same.mpr ?_
      intro m _ hrecv
      by_cases hin : ids.contains m.id = true
      · rw [if_pos hin, markReadMsg,
          if_neg (by simp [beq_iff_eq]; intro h; exact absurd h hrecv)]
      · rw [if_neg hin]
    · intro q hq
      obtain ⟨s, hsf, hq⟩ := List.mem_map.mp hq
      obtain ⟨hsd, hsc⟩ := List.mem_filter.mp hsf
      have hsconns : s ∈ conns := contains_iff_mem.mp hsc
      have hsd' := List.mem_dedup.mp hsd
      obtain ⟨hsm, hsne⟩ := List.mem_filter.mp hsd'
      obtain ⟨m, hml, hms⟩ := List.mem_map.mp hsm
      obtain ⟨hmu, hmid⟩ := List.mem_filter.mp hml
      subst hq
      refine ⟨rfl, hsconns, ?_, m, hmu, contains_iff_mem.mp hmid, hms⟩
      exact bne_iff_ne.mp hsne
    · intro m hm hid hsne hsc
      refine List.mem_map.mpr ⟨m.sender_id, ?_, rfl⟩
      refine List.mem_filter.mpr ⟨?_, contains_iff_mem.mpr hsc⟩
      refine List.mem_dedup.mpr ?_
      refine List.mem_filter.mpr ⟨?_, bne_iff_ne.mpr hsne⟩
      exact List.mem_map.mpr
        ⟨m, List.mem_filter.mpr ⟨hm, contains_iff_mem.mpr hid⟩, rfl⟩

/-- C6 witness: the theorem at the store holding one `sent` message from
"s" to "u" with "s" connected: after "u" acks it read, sender "s" is
pushed the id list `[1]`. -/
theorem c6_witness :
    ("s", [1]) ∈ (handle_mark_read [1] "u" 7
      [⟨1, "s", "u", some "hi", none, 0, .sent, none, none⟩] ["s"]).pushes := by
  have h := (c6_read_ack_receiver_check_and_notification [1] "u" 7
    [⟨1, "s", "u", some "hi", none, 0, .sent, none, none⟩] ["s"]).2.2
  exact h ⟨1, "s", "u", some "hi", none, 0, .read, none, some 7⟩
    (by decide) (by decide) (by decide) (by decide)

end Zami
